import Mathlib

/-!
Verification development for the `Minecraft-3D-Graphics` repository
(single source file `src/main.cpp`).

The per-frame gameplay logic of `main.cpp` is embedded shallowly:

* `glm::vec3` float vectors are modelled as `Vec3`, a record of exact
  rationals; all arithmetic the source performs on them (`+`, `-`,
  scalar `*`, `glm::mix`) is embedded with exact rational arithmetic.
* The distance test `glm::length(a - b) < 0.8f` is embedded as the
  equivalent comparison of squared length against `(4/5)^2`, which
  avoids square roots while agreeing with the source's comparison on
  exact arithmetic.
* `atan2`, which the source only ever stores into an orientation
  vector and never inspects, is passed in as an uninterpreted function
  parameter `a2 : ℚ → ℚ → ℚ`.
* Raw `Object3D*` pointers into the scene's `std::vector<Object3D>`
  are modelled as slot indices (`Option Nat`): `std::vector::erase`
  never reallocates, so a raw pointer is exactly a fixed slot of the
  vector.  The `std::remove_if` call compares element addresses with
  the stored pointer, so it erases exactly the element currently in
  the referenced slot; it is embedded as `List.eraseIdx` at that slot.
* Keyboard/camera handling (lines 373-435 of `main.cpp`) only ever
  affects the hunter's displacement and orientation and the camera
  state; it is user input, and is modelled as a per-frame displacement
  input (`FrameInput.creeperMove`, `FrameInput.creeperOrient`).
-/

/-- Exact-rational model of `glm::vec3`. -/
structure Vec3 where
  x : ℚ
  y : ℚ
  z : ℚ
deriving DecidableEq, Repr

instance : Add Vec3 := ⟨fun a b => ⟨a.x + b.x, a.y + b.y, a.z + b.z⟩⟩

instance : Sub Vec3 := ⟨fun a b => ⟨a.x - b.x, a.y - b.y, a.z - b.z⟩⟩

instance : SMul ℚ Vec3 := ⟨fun t v => ⟨t * v.x, t * v.y, t * v.z⟩⟩

theorem Vec3.add_def (a b : Vec3) : a + b = ⟨a.x + b.x, a.y + b.y, a.z + b.z⟩ := rfl

theorem Vec3.sub_def (a b : Vec3) : a - b = ⟨a.x - b.x, a.y - b.y, a.z - b.z⟩ := rfl

theorem Vec3.smul_def (t : ℚ) (v : Vec3) : t • v = ⟨t * v.x, t * v.y, t * v.z⟩ := rfl

/-- `glm::mix(a, b, t) = a + t * (b - a)`, componentwise. -/
def glmMix (a b : Vec3) (t : ℚ) : Vec3 := a + t • (b - a)

/-- Squared Euclidean length; `glm::length v < r` (for `r ≥ 0`) is equivalent to
`sqLen v < r * r` on exact arithmetic. -/
def Vec3.sqLen (v : Vec3) : ℚ := v.x * v.x + v.y * v.y + v.z * v.z

/-- `const float mapMinX = -50.0f` (main.cpp line 269). -/
def mapMinX : ℚ := -50

/-- `const float mapMaxX = 50.0f` (main.cpp line 270). -/
def mapMaxX : ℚ := 50

/-- `const float mapMinZ = -50.0f` (main.cpp line 271). -/
def mapMinZ : ℚ := -50

/-- `const float mapMaxZ = 50.0f` (main.cpp line 272). -/
def mapMaxZ : ℚ := 50

/-- The fixed proximity threshold `0.8f` of the explosion checks
(main.cpp lines 454 and 493). -/
def proximityThreshold : ℚ := 4/5

/-- The fleeing speed factor `1.0f` of `steveFleeDir * deltaTime * 1.0f`
(main.cpp lines 440, 449, 476, 487). -/
def fleeSpeed : ℚ := 1

/-- Day-phase endpoint `glm::vec3(1.0f, 1.0f, 1.0f)` (white). -/
def dayWhite : Vec3 := ⟨1, 1, 1⟩

/-- Day-phase endpoint `glm::vec3(1.0f, 0.6f, 0.2f)` (orange). -/
def dayOrange : Vec3 := ⟨1, 6/10, 2/10⟩

/-- Day-phase endpoint `glm::vec3(0.05f, 0.05f, 0.1f)` (dark blue). -/
def dayDark : Vec3 := ⟨5/100, 5/100, 1/10⟩

/-- Embedding of main.cpp lines 339-355: `sunTime += deltaTime` followed by
the three-phase ambient interpolation, with the `else` branch resetting the
clock and leaving `ambientColor` untouched.  Returns the new `sunTime` and
the new `ambientColor`. -/
def dayNightStep (sunTime : ℚ) (ambientColor : Vec3) (deltaTime : ℚ) : ℚ × Vec3 :=
  let s := sunTime + deltaTime
  if s < 30 then (s, glmMix dayWhite dayOrange (s / 30))
  else if s < 60 then (s, glmMix dayOrange dayDark ((s - 30) / 30))
  else if s < 90 then (s, glmMix dayDark dayWhite ((s - 60) / 30))
  else (0, ambientColor)

/-- Embedding of main.cpp lines 358-367: the sun-position update performed
when `sunRef` is non-null.  `x = -30 + (sunTime/60)*60`, replaced by `1000`
once it exceeds `30`; the position committed is `(x, 40, -20)`. -/
def sunUpdate (sunTime : ℚ) : Vec3 :=
  let x : ℚ := -30 + (sunTime / 60) * 60
  let x' : ℚ := if x > 30 then 1000 else x
  ⟨x', 40, -20⟩

/-- The bounce-corrected flee direction: embedding of main.cpp lines
440-447 (Steve) and 476-484 (pig).  The proposed position is computed with
the ORIGINAL direction, then each axis component is inverted (at most once)
if that proposed coordinate exits the map bounds. -/
def bouncedDir (pos fleeDir : Vec3) (deltaTime : ℚ) : Vec3 :=
  let proposedPos := pos + fleeSpeed • (deltaTime • fleeDir)
  let dir1 : Vec3 :=
    if proposedPos.x < mapMinX ∨ proposedPos.x > mapMaxX then
      ⟨-fleeDir.x, fleeDir.y, fleeDir.z⟩
    else fleeDir
  let dir2 : Vec3 :=
    if proposedPos.z < mapMinZ ∨ proposedPos.z > mapMaxZ then
      ⟨dir1.x, dir1.y, -dir1.z⟩
    else dir1
  dir2

/-- Embedding of one fleeing-target movement step, main.cpp lines 440-451
(Steve) and 476-489 (pig): propose, bounce-correct the direction, recompute
the proposed position with the corrected direction, commit it, and face the
corrected direction.  `a2` is the uninterpreted embedding of `atan2`.
Returns `(new position, new flee direction, new orientation)`. -/
def fleeMove (a2 : ℚ → ℚ → ℚ) (pos fleeDir : Vec3) (deltaTime : ℚ) :
    Vec3 × Vec3 × Vec3 :=
  let proposedPos := pos + fleeSpeed • (deltaTime • fleeDir)
  let dir1 : Vec3 :=
    if proposedPos.x < mapMinX ∨ proposedPos.x > mapMaxX then
      ⟨-fleeDir.x, fleeDir.y, fleeDir.z⟩
    else fleeDir
  let dir2 : Vec3 :=
    if proposedPos.z < mapMinZ ∨ proposedPos.z > mapMaxZ then
      ⟨dir1.x, dir1.y, -dir1.z⟩
    else dir1
  let newPos := pos + fleeSpeed • (deltaTime • dir2)
  (newPos, dir2, ⟨0, a2 dir2.x dir2.z, 0⟩)

/-- The observable state of one scene object: its name tag (set with
`setName` / read with `getName`), its local position and its orientation.
Steve, the pig and the creeper are root objects, so local position equals
world position. -/
structure Object3D where
  name : String
  pos : Vec3
  orient : Vec3
deriving DecidableEq, Repr

/-- The distance test of main.cpp lines 453-454 and 492-493:
`glm::length(cPos - tPos) < 0.8f`, embedded as the equivalent squared
comparison. -/
def closeEnough (cPos tPos : Vec3) : Bool :=
  decide (Vec3.sqLen (cPos - tPos) < proximityThreshold * proximityThreshold)

/-- Embedding of the re-link loop of main.cpp lines 463-468 and 499-504:
scan the object list front to back and return the index of the first object
named `nm`, stopping at the first hit (`break`). -/
def findByName (nm : String) : List Object3D → Option Nat
  | [] => none
  | o :: rest =>
    if o.name == nm then some 0 else (findByName nm rest).map (fun i => i + 1)

/-- Embedding of the explosion step, main.cpp lines 453-469 (Steve) and
492-505 (pig).  `creeperIdx`/`targetIdx` are the slots the raw pointers
`creeperRef` and `steveRef`/`pigRef` designate.  If the hunter-target
distance is below the threshold, the target's slot is erased (the
`std::remove_if` predicate compares element addresses with the stored
pointer, so exactly the referenced slot is removed and the remaining order
is preserved), the target reference becomes null, and the creeper reference
is re-bound by the name scan (left untouched when no object is named
`"Creeper"`, as in the source's loop).  Returns
`(objects, creeperRef, targetRef)` after the step.  Dereferencing an
out-of-range slot is undefined behaviour in the source; the embedding
returns the state unchanged in that case. -/
def removalStep (objects : List Object3D) (creeperIdx targetIdx : Nat) :
    List Object3D × Option Nat × Option Nat :=
  match objects.get? creeperIdx, objects.get? targetIdx with
  | some cObj, some tObj =>
    if closeEnough cObj.pos tObj.pos then
      let objects' := objects.eraseIdx targetIdx
      let creeperRef' :=
        match findByName "Creeper" objects' with
        | some i => some i
        | none => some creeperIdx
      (objects', creeperRef', none)
    else (objects, some creeperIdx, some targetIdx)
  | _, _ => (objects, some creeperIdx, some targetIdx)

/-- Embedding of one full per-target block of the frame loop, main.cpp
lines 437-470 (Steve) and 473-506 (pig): guarded by both references being
non-null, move the target along its flee direction with boundary bounce,
commit position and orientation, then run the explosion check.  Returns
`(objects, creeperRef, targetRef, fleeDir)` after the block. -/
def targetBlock (a2 : ℚ → ℚ → ℚ) (objects : List Object3D)
    (creeperRef targetRef : Option Nat) (fleeDir : Vec3) (deltaTime : ℚ) :
    List Object3D × Option Nat × Option Nat × Vec3 :=
  match creeperRef, targetRef with
  | some c, some t =>
    match objects.get? t with
    | some tObj =>
      let m := fleeMove a2 tObj.pos fleeDir deltaTime
      let objects1 := objects.set t ⟨tObj.name, m.1, m.2.2⟩
      let r := removalStep objects1 c t
      (r.1, r.2.1, r.2.2, m.2.1)
    | none => (objects, some c, some t, fleeDir)
  | _, _ => (objects, creeperRef, targetRef, fleeDir)

/-- Per-frame environment input: whether a close event was polled, the
frame time `diff.asSeconds()`, and the keyboard-driven hunter displacement
and orientation produced by main.cpp lines 373-435. -/
structure FrameInput where
  closeEvent : Bool
  deltaTime : ℚ
  creeperMove : Vec3
  creeperOrient : Option Vec3
deriving Repr

/-- The mutable state the frame loop of `main` threads from one iteration
to the next (the fields of the claims; camera state is omitted as it only
feeds the keyboard-displacement input). -/
structure GameState where
  running : Bool
  sunTime : ℚ
  ambientColor : Vec3
  sunBound : Bool
  sunPos : Vec3
  objects : List Object3D
  creeperRef : Option Nat
  steveRef : Option Nat
  pigRef : Option Nat
  steveFleeDir : Vec3
  pigFleeDir : Vec3
deriving Repr

/-- One iteration of the frame loop (main.cpp lines 324-557): poll events
(a close event clears `running`), advance the day/night cycle, move the sun
if its reference is bound, apply the keyboard-driven hunter movement, run
the Steve block, run the pig block, and finally end the loop if both
fleeing targets are gone (main.cpp lines 553-556). -/
def frameStep (a2 : ℚ → ℚ → ℚ) (st : GameState) (inp : FrameInput) : GameState :=
  let running1 := st.running && !inp.closeEvent
  let dn := dayNightStep st.sunTime st.ambientColor inp.deltaTime
  let sunPos1 := if st.sunBound then sunUpdate dn.1 else st.sunPos
  let objectsA :=
    match st.creeperRef with
    | some c =>
      match st.objects.get? c with
      | some cObj =>
        st.objects.set c
          ⟨cObj.name, cObj.pos + inp.creeperMove, inp.creeperOrient.getD cObj.orient⟩
      | none => st.objects
    | none => st.objects
  let sb := targetBlock a2 objectsA st.creeperRef st.steveRef st.steveFleeDir inp.deltaTime
  let pb := targetBlock a2 sb.1 sb.2.1 st.pigRef st.pigFleeDir inp.deltaTime
  let running2 := if sb.2.2.1.isNone && pb.2.2.1.isNone then false else running1
  { running := running2
    sunTime := dn.1
    ambientColor := dn.2
    sunBound := st.sunBound
    sunPos := sunPos1
    objects := pb.1
    creeperRef := pb.2.1
    steveRef := sb.2.2.1
    pigRef := pb.2.2.1
    steveFleeDir := sb.2.2.2
    pigFleeDir := pb.2.2.2 }

/-- The frame loop `while (running) { ... }`: consume per-frame inputs
until the running flag is cleared or the input stream ends. -/
def runLoop (a2 : ℚ → ℚ → ℚ) : GameState → List FrameInput → GameState
  | st, [] => st
  | st, inp :: rest =>
    if st.running then runLoop a2 (frameStep a2 st inp) rest else st

/-- Model of a constructed `ShaderProgram` (an external collaborator): only
its identity matters to the claims. -/
structure ShaderProgram where
  ident : Nat
deriving DecidableEq, Repr

/-- Embedding of `texturingShader` (main.cpp lines 54-64): `load` is the
external `ShaderProgram::load`, which either returns a constructed program
or raises a runtime error with a message.  On error the handler logs
`"ERROR: " ++ message` and calls `exit(1)`; on success the shader is
returned unchanged.  The result is the exit code or the shader, paired
with the log output. -/
def texturingShader (load : String → String → Except String ShaderProgram) :
    Except Nat ShaderProgram × List String :=
  match load "shaders/texture_perspective.vert" "shaders/texturing.frag" with
  | .ok shader => (.ok shader, [])
  | .error e => (.error 1, [String.append "ERROR: " e])

/-- Embedding of `phongLightingShader` (main.cpp lines 38-49): identical
error handling to `texturingShader`, different shader paths. -/
def phongLightingShader (load : String → String → Except String ShaderProgram) :
    Except Nat ShaderProgram × List String :=
  match load "shaders/light_perspective.vert" "shaders/lighting.frag" with
  | .ok shader => (.ok shader, [])
  | .error e => (.error 1, [String.append "ERROR: " e])

/-- Embedding of `main` (main.cpp lines 283-561) at the level the claims
need: construct the scene's shader (`minecraftScene` calls
`texturingShader()`, which exits with status 1 on a load failure before
the frame loop is ever entered), then run the frame loop and return 0. -/
def mainProgram (a2 : ℚ → ℚ → ℚ)
    (load : String → String → Except String ShaderProgram)
    (st0 : GameState) (frames : List FrameInput) : Nat :=
  match (texturingShader load).1 with
  | .error code => code
  | .ok _ =>
    let _ := runLoop a2 st0 frames
    0

/-- Modelled from the spec: the `RotationAnimation` class is declared in a
header (`Animator.h`/`RotationAnimation.h`) that is not under `src/`; only
its call sites appear in `main.cpp`.  Spec section 4.2: "`tick(dt)`:
elapsed += dt; ... the implementation must apply exactly the delta-rotation
proportional to `dt/duration` each call ... and report completion once
elapsed ≥ duration." -/
structure RotationAnimation where
  duration : ℚ
  totalDelta : Vec3
  elapsed : ℚ
deriving DecidableEq, Repr

/-- Modelled from the spec: `start()` resets elapsed time to zero
(spec section 4.2). -/
def RotationAnimation.start (a : RotationAnimation) : RotationAnimation :=
  ⟨a.duration, a.totalDelta, 0⟩

/-- Modelled from the spec: one `tick(dt)` call.  Returns the updated
animation, the incremental rotation `Δ * (dt/D)` applied to the target, and
the completion flag `elapsed' ≥ duration`. -/
def RotationAnimation.tick (a : RotationAnimation) (dt : ℚ) :
    RotationAnimation × Vec3 × Bool :=
  let elapsed' := a.elapsed + dt
  (⟨a.duration, a.totalDelta, elapsed'⟩,
   (dt / a.duration) • a.totalDelta,
   decide (a.duration ≤ elapsed'))

/-- Tick an animation through a sequence of frame times, accumulating the
incremental rotations into the target's orientation (spec section 4.1:
`rotate` composes additively).  Returns the final animation state and the
target's final orientation. -/
def runTicks (a : RotationAnimation) (orient : Vec3) :
    List ℚ → RotationAnimation × Vec3
  | [] => (a, orient)
  | dt :: rest =>
    let r := a.tick dt
    runTicks r.1 (orient + r.2.1) rest

/-! ### Helper lemmas -/

theorem eraseIdx_get?_lt (l : List α) (i j : Nat) (h : j < i) :
    (l.eraseIdx i).get? j = l.get? j := by
  induction l generalizing i j with
  | nil => simp [List.eraseIdx]
  | cons a as ih =>
    cases i with
    | zero => omega
    | succ i' =>
      cases j with
      | zero => simp [List.eraseIdx]
      | succ j' =>
        simp only [List.eraseIdx, List.get?]
        exact ih i' j' (by omega)

theorem eraseIdx_get?_ge (l : List α) (i j : Nat) (h : i ≤ j) :
    (l.eraseIdx i).get? j = l.get? (j + 1) := by
  induction l generalizing i j with
  | nil => simp [List.eraseIdx]
  | cons a as ih =>
    cases i with
    | zero => simp [List.eraseIdx]
    | succ i' =>
      cases j with
      | zero => omega
      | succ j' =>
        simp only [List.eraseIdx, List.get?]
        exact ih i' j' (by omega)

theorem findByName_get? (nm : String) (l : List Object3D) (i : Nat)
    (h : findByName nm l = some i) :
    ∃ o, l.get? i = some o ∧ o.name = nm := by
  induction l generalizing i with
  | nil => simp [findByName] at h
  | cons o rest ih =>
    by_cases ho : o.name = nm
    · simp [findByName, ho] at h
      subst h
      exact ⟨o, rfl, ho⟩
    · simp [findByName, ho] at h
      obtain ⟨i', hi', rfl⟩ := h
      obtain ⟨o', h1, h2⟩ := ih i' hi'
      exact ⟨o', h1, h2⟩

/-! ### Claims -/

/-- C1: for every tick in which the hunter and a fleeing-target reference
are both non-null (slots `c` and `t` holding objects `cObj` and `tObj`) and
the Euclidean hunter-target distance is strictly below 0.8, the explosion
step erases that target from the object list exactly once (the list becomes
`take t ++ drop (t+1)`: one element shorter, every other element preserved
in relative order), nulls the target reference, and re-binds the hunter
reference to the first object in the list named `"Creeper"`; when the
distance is 0.8 or more, the object list and both references are
unchanged. -/
theorem C1_removal (objects : List Object3D) (c t : Nat) (cObj tObj : Object3D)
    (hc : objects.get? c = some cObj) (ht : objects.get? t = some tObj) :
    (closeEnough cObj.pos tObj.pos = true →
      (removalStep objects c t).1 = objects.take t ++ objects.drop (t + 1) ∧
      (removalStep objects c t).1.length + 1 = objects.length ∧
      (∀ j, j < t → (removalStep objects c t).1.get? j = objects.get? j) ∧
      (∀ j, t ≤ j → (removalStep objects c t).1.get? j = objects.get? (j + 1)) ∧
      (removalStep objects c t).2.2 = none ∧
      (∀ i, findByName "Creeper" (objects.eraseIdx t) = some i →
        (removalStep objects c t).2.1 = some i ∧
        ∃ o, (removalStep objects c t).1.get? i = some o ∧ o.name = "Creeper")) ∧
    (closeEnough cObj.pos tObj.pos = false →
      removalStep objects c t = (objects, some c, some t)) := by
  have htlen : t < objects.length := by
    rcases List.get?_eq_some.mp ht with ⟨h, _⟩
    exact h
  constructor
  · intro hclose
    have hstep : removalStep objects c t =
        (objects.eraseIdx t,
         match findByName "Creeper" (objects.eraseIdx t) with
         | some i => some i
         | none => some c,
         none) := by
      unfold removalStep
      rw [hc, ht]
      dsimp only
      simp [hclose]
    refine ⟨?_, ?_, ?_, ?_, ?_, ?_⟩
    · rw [hstep]
      exact List.eraseIdx_eq_take_drop_succ objects t
    · rw [hstep]
      simp only
      rw [List.length_eraseIdx_of_lt htlen]
      omega
    · intro j hj
      rw [hstep]
      exact eraseIdx_get?_lt objects t j hj
    · intro j hj
      rw [hstep]
      exact eraseIdx_get?_ge objects t j hj
    · rw [hstep]
    · intro i hfind
      constructor
      · rw [hstep]
        simp only [hfind]
      · rw [hstep]
        simp only
        exact findByName_get? "Creeper" (objects.eraseIdx t) i hfind
  · intro hfar
    unfold removalStep
    rw [hc, ht]
    dsimp only
    simp [hfar]

/-- Witness for C1 on a two-object scene: the creeper at the origin and
Steve half a unit away (distance 0.5 < 0.8). -/
theorem C1_removal_witness :
    (removalStep
      [⟨"Creeper", ⟨0, 0, 0⟩, ⟨0, 0, 0⟩⟩, ⟨"Steve", ⟨0, 0, 1/2⟩, ⟨0, 0, 0⟩⟩]
      0 1).2.2 = none ∧
    (removalStep
      [⟨"Creeper", ⟨0, 0, 0⟩, ⟨0, 0, 0⟩⟩, ⟨"Steve", ⟨0, 0, 1/2⟩, ⟨0, 0, 0⟩⟩]
      0 1).1.length + 1 = 2 ∧
    (removalStep
      [⟨"Creeper", ⟨0, 0, 0⟩, ⟨0, 0, 0⟩⟩, ⟨"Steve", ⟨0, 0, 1/2⟩, ⟨0, 0, 0⟩⟩]
      0 1).2.1 = some 0 := by
  have h := C1_removal
    [⟨"Creeper", ⟨0, 0, 0⟩, ⟨0, 0, 0⟩⟩, ⟨"Steve", ⟨0, 0, 1/2⟩, ⟨0, 0, 0⟩⟩]
    0 1 ⟨"Creeper", ⟨0, 0, 0⟩, ⟨0, 0, 0⟩⟩ ⟨"Steve", ⟨0, 0, 1/2⟩, ⟨0, 0, 0⟩⟩
    rfl rfl
  have hclose : closeEnough (⟨0, 0, 0⟩ : Vec3) (⟨0, 0, 1/2⟩ : Vec3) = true := by
    simp only [closeEnough, decide_eq_true_eq, Vec3.sub_def, Vec3.sqLen,
      proximityThreshold]
    norm_num
  have h1 := h.1 hclose
  have hfind : findByName "Creeper"
      (([⟨"Creeper", ⟨0, 0, 0⟩, ⟨0, 0, 0⟩⟩,
         ⟨"Steve", ⟨0, 0, 1/2⟩, ⟨0, 0, 0⟩⟩] : List Object3D).eraseIdx 1) =
      some 0 := by
    simp [List.eraseIdx, findByName]
  refine ⟨h1.2.2.2.2.1, ?_, ?_⟩
  · rw [h1.2.1]
    rfl
  · exact (h1.2.2.2.2.2 0 hfind).1

/-- The committed `x` coordinate and the corrected `x` direction component
of a flee step, in closed form: the `z`-axis bounce does not affect the
`x` components. -/
theorem fleeMove_x (a2 : ℚ → ℚ → ℚ) (pos dir : Vec3) (dt : ℚ) :
    (fleeMove a2 pos dir dt).2.1.x =
      (if pos.x + fleeSpeed * (dt * dir.x) < mapMinX ∨
          pos.x + fleeSpeed * (dt * dir.x) > mapMaxX then -dir.x else dir.x) ∧
    (fleeMove a2 pos dir dt).1.x =
      pos.x + fleeSpeed * (dt *
        (if pos.x + fleeSpeed * (dt * dir.x) < mapMinX ∨
            pos.x + fleeSpeed * (dt * dir.x) > mapMaxX then -dir.x else dir.x)) := by
  unfold fleeMove
  dsimp only [Vec3.add_def, Vec3.smul_def]
  by_cases hx : pos.x + fleeSpeed * (dt * dir.x) < mapMinX ∨
      pos.x + fleeSpeed * (dt * dir.x) > mapMaxX
  · by_cases hz : pos.z + fleeSpeed * (dt * dir.z) < mapMinZ ∨
        pos.z + fleeSpeed * (dt * dir.z) > mapMaxZ
    · simp [hx, hz]
    · simp [hx, hz]
  · by_cases hz : pos.z + fleeSpeed * (dt * dir.z) < mapMinZ ∨
        pos.z + fleeSpeed * (dt * dir.z) > mapMaxZ
    · simp [hx, hz]
    · simp [hx, hz]

/-- The committed `z` coordinate and the corrected `z` direction component
of a flee step, in closed form: the `x`-axis bounce does not affect the
`z` components. -/
theorem fleeMove_z (a2 : ℚ → ℚ → ℚ) (pos dir : Vec3) (dt : ℚ) :
    (fleeMove a2 pos dir dt).2.1.z =
      (if pos.z + fleeSpeed * (dt * dir.z) < mapMinZ ∨
          pos.z + fleeSpeed * (dt * dir.z) > mapMaxZ then -dir.z else dir.z) ∧
    (fleeMove a2 pos dir dt).1.z =
      pos.z + fleeSpeed * (dt *
        (if pos.z + fleeSpeed * (dt * dir.z) < mapMinZ ∨
            pos.z + fleeSpeed * (dt * dir.z) > mapMaxZ then -dir.z else dir.z)) := by
  unfold fleeMove
  dsimp only [Vec3.add_def, Vec3.smul_def]
  by_cases hx : pos.x + fleeSpeed * (dt * dir.x) < mapMinX ∨
      pos.x + fleeSpeed * (dt * dir.x) > mapMaxX
  · by_cases hz : pos.z + fleeSpeed * (dt * dir.z) < mapMinZ ∨
        pos.z + fleeSpeed * (dt * dir.z) > mapMaxZ
    · simp [hx, hz]
    · simp [hx, hz]
  · by_cases hz : pos.z + fleeSpeed * (dt * dir.z) < mapMinZ ∨
        pos.z + fleeSpeed * (dt * dir.z) > mapMaxZ
    · simp [hx, hz]
    · simp [hx, hz]

/-- One-dimensional bounce arithmetic: reflecting a proposed step that
exits `[lo, hi]` stays inside `[lo, hi]` provided the step size is at most
half the interval width. -/
theorem bounce_bound (p d lo hi : ℚ) (h1 : lo ≤ p) (h2 : p ≤ hi)
    (h3 : |d| ≤ (hi - lo) / 2) :
    lo ≤ (if p + d < lo ∨ p + d > hi then p - d else p + d) ∧
    (if p + d < lo ∨ p + d > hi then p - d else p + d) ≤ hi := by
  rcases abs_le.mp h3 with ⟨ha, hb⟩
  by_cases h : p + d < lo ∨ p + d > hi
  · simp only [h, if_true]
    rcases h with h | h
    · exact ⟨by linarith, by linarith⟩
    · exact ⟨by linarith, by linarith⟩
  · simp only [h, if_false]
    push_neg at h
    exact ⟨by linarith [h.1], by linarith [h.2]⟩

/-- C2 counterexample: the claim as stated is false.  With the target at
`x = 0` (well inside the map bounds), flee direction `(1,0,0)` and a frame
time of 60 seconds, the proposed position `x = 60` exits the map, the
direction is inverted, and the recomputed (and committed) position is
`x = -60`, strictly outside `[mapMinX, mapMaxX]` on that axis. -/
theorem C2_bounce_counterexample :
    mapMinX ≤ (0 : ℚ) ∧ (0 : ℚ) ≤ mapMaxX ∧
    (fleeMove (fun _ _ => 0) ⟨0, 0, 0⟩ ⟨1, 0, 0⟩ 60).1.x < mapMinX := by
  refine ⟨by norm_num [mapMinX], by norm_num [mapMaxX], ?_⟩
  rw [(fleeMove_x (fun _ _ => 0) ⟨0, 0, 0⟩ ⟨1, 0, 0⟩ 60).2]
  norm_num [mapMinX, mapMaxX, fleeSpeed]

/-- C2 amended: for every tick and every fleeing target whose current
position lies within the map bounds on an axis, if the proposed position
would leave `[min, max]` on that axis then that axis component of the flee
direction is inverted exactly once and the position is recomputed with the
corrected direction (and is left alone otherwise); and PROVIDED the step
size on that axis is at most half the map width (50), the target never
ends the tick strictly outside `[min, max]` on that axis.  (Without the
step-size bound a single huge frame time reflects past the opposite
boundary, as the counterexample shows.) -/
theorem C2_bounce_amended (a2 : ℚ → ℚ → ℚ) (pos dir : Vec3) (dt : ℚ) :
    ((pos.x + fleeSpeed * (dt * dir.x) < mapMinX ∨
        pos.x + fleeSpeed * (dt * dir.x) > mapMaxX) →
      (fleeMove a2 pos dir dt).2.1.x = -dir.x ∧
      (fleeMove a2 pos dir dt).1.x = pos.x + fleeSpeed * (dt * -dir.x)) ∧
    (¬(pos.x + fleeSpeed * (dt * dir.x) < mapMinX ∨
        pos.x + fleeSpeed * (dt * dir.x) > mapMaxX) →
      (fleeMove a2 pos dir dt).2.1.x = dir.x ∧
      (fleeMove a2 pos dir dt).1.x = pos.x + fleeSpeed * (dt * dir.x)) ∧
    ((pos.z + fleeSpeed * (dt * dir.z) < mapMinZ ∨
        pos.z + fleeSpeed * (dt * dir.z) > mapMaxZ) →
      (fleeMove a2 pos dir dt).2.1.z = -dir.z ∧
      (fleeMove a2 pos dir dt).1.z = pos.z + fleeSpeed * (dt * -dir.z)) ∧
    (¬(pos.z + fleeSpeed * (dt * dir.z) < mapMinZ ∨
        pos.z + fleeSpeed * (dt * dir.z) > mapMaxZ) →
      (fleeMove a2 pos dir dt).2.1.z = dir.z ∧
      (fleeMove a2 pos dir dt).1.z = pos.z + fleeSpeed * (dt * dir.z)) ∧
    (mapMinX ≤ pos.x → pos.x ≤ mapMaxX →
      |fleeSpeed * (dt * dir.x)| ≤ (mapMaxX - mapMinX) / 2 →
      mapMinX ≤ (fleeMove a2 pos dir dt).1.x ∧
      (fleeMove a2 pos dir dt).1.x ≤ mapMaxX) ∧
    (mapMinZ ≤ pos.z → pos.z ≤ mapMaxZ →
      |fleeSpeed * (dt * dir.z)| ≤ (mapMaxZ - mapMinZ) / 2 →
      mapMinZ ≤ (fleeMove a2 pos dir dt).1.z ∧
      (fleeMove a2 pos dir dt).1.z ≤ mapMaxZ) := by
  obtain ⟨hdx, hpx⟩ := fleeMove_x a2 pos dir dt
  obtain ⟨hdz, hpz⟩ := fleeMove_z a2 pos dir dt
  refine ⟨?_, ?_, ?_, ?_, ?_, ?_⟩
  · intro h
    rw [hdx, hpx]
    simp [h]
  · intro h
    rw [hdx, hpx]
    simp [h]
  · intro h
    rw [hdz, hpz]
    simp [h]
  · intro h
    rw [hdz, hpz]
    simp [h]
  · intro h1 h2 h3
    have hb := bounce_bound pos.x (fleeSpeed * (dt * dir.x)) mapMinX mapMaxX h1 h2 h3
    rw [hpx]
    by_cases h : pos.x + fleeSpeed * (dt * dir.x) < mapMinX ∨
        pos.x + fleeSpeed * (dt * dir.x) > mapMaxX
    · simp only [h, if_true] at hb ⊢
      constructor <;> [linarith [hb.1]; linarith [hb.2]]
    · simp only [h, if_false] at hb ⊢
      exact hb
  · intro h1 h2 h3
    have hb := bounce_bound pos.z (fleeSpeed * (dt * dir.z)) mapMinZ mapMaxZ h1 h2 h3
    rw [hpz]
    by_cases h : pos.z + fleeSpeed * (dt * dir.z) < mapMinZ ∨
        pos.z + fleeSpeed * (dt * dir.z) > mapMaxZ
    · simp only [h, if_true] at hb ⊢
      constructor <;> [linarith [hb.1]; linarith [hb.2]]
    · simp only [h, if_false] at hb ⊢
      exact hb

/-- Witness for C2 amended: the pig at `x = 49.9` heading right with
`dt = 0.2` bounces off the right wall and ends inside the map. -/
theorem C2_bounce_amended_witness :
    ((499/10 : ℚ) + fleeSpeed * ((2/10) * 1) < mapMinX ∨
      (499/10 : ℚ) + fleeSpeed * ((2/10) * 1) > mapMaxX) ∧
    (fleeMove (fun _ _ => 0) ⟨499/10, 0, 0⟩ ⟨1, 0, 0⟩ (2/10)).2.1.x = -1 ∧
    mapMinX ≤ (fleeMove (fun _ _ => 0) ⟨499/10, 0, 0⟩ ⟨1, 0, 0⟩ (2/10)).1.x ∧
    (fleeMove (fun _ _ => 0) ⟨499/10, 0, 0⟩ ⟨1, 0, 0⟩ (2/10)).1.x ≤ mapMaxX := by
  have hout : ((499/10 : ℚ) + fleeSpeed * ((2/10) * 1) < mapMinX ∨
      (499/10 : ℚ) + fleeSpeed * ((2/10) * 1) > mapMaxX) := by
    right
    norm_num [mapMaxX, fleeSpeed]
  have h := C2_bounce_amended (fun _ _ => 0) ⟨499/10, 0, 0⟩ ⟨1, 0, 0⟩ (2/10)
  have hinv := h.1 hout
  have hbound := h.2.2.2.2.1 (by norm_num [mapMinX]) (by norm_num [mapMaxX])
    (by norm_num [mapMinX, mapMaxX, fleeSpeed, abs_le])
  exact ⟨hout, hinv.1, hbound⟩

/-- Running a tick sequence from elapsed time `e` adds the sum of the frame
times to the elapsed clock and rotates the target by the proportional share
of the total delta. -/
theorem runTicks_spec (D : ℚ) (Δ : Vec3) (e : ℚ) (θ : Vec3) (dts : List ℚ) :
    runTicks ⟨D, Δ, e⟩ θ dts =
      (⟨D, Δ, e + dts.sum⟩, θ + (dts.sum / D) • Δ) := by
  induction dts generalizing e θ with
  | nil =>
    simp [runTicks, Vec3.smul_def, Vec3.add_def]
  | cons d rest ih =>
    simp only [runTicks, RotationAnimation.tick, List.sum_cons]
    rw [ih]
    simp only [Prod.mk.injEq]
    constructor
    · simp only [RotationAnimation.mk.injEq, true_and]
      ring
    · simp only [Vec3.smul_def, Vec3.add_def, Vec3.mk.injEq]
      refine ⟨by ring, by ring, by ring⟩

/-- C3 (modelled from the spec, `RotationAnimation` is declared outside
`src/`): an animation of duration `D > 0` and total delta `Δ` applies
exactly the rotation `Δ * (dt/D)` on each `tick(dt)` call and reports
completion exactly when the cumulative elapsed time reaches `D`; hence for
every finite sequence of positive frame times summing exactly to `D`,
ticking through the sequence from a fresh start leaves the target rotated
by exactly `Δ` (and the elapsed clock at `D`, so the final call reports
completion), however `D` is partitioned. -/
theorem C3_rotation_partition (D : ℚ) (Δ θ : Vec3) (dts : List ℚ)
    (hD : 0 < D) (hpos : ∀ d ∈ dts, 0 < d) (hsum : dts.sum = D) :
    (∀ (e dt : ℚ),
      ((⟨D, Δ, e⟩ : RotationAnimation).tick dt).2.1 = (dt / D) • Δ ∧
      (((⟨D, Δ, e⟩ : RotationAnimation).tick dt).2.2 = true ↔ D ≤ e + dt)) ∧
    runTicks ((⟨D, Δ, 37⟩ : RotationAnimation).start) θ dts =
      (⟨D, Δ, D⟩, θ + Δ) := by
  constructor
  · intro e dt
    constructor
    · simp [RotationAnimation.tick]
    · simp [RotationAnimation.tick]
  · have hstart : (⟨D, Δ, 37⟩ : RotationAnimation).start = ⟨D, Δ, 0⟩ := rfl
    rw [hstart, runTicks_spec, hsum]
    have hDD : D / D = 1 := div_self (ne_of_gt hD)
    rw [hDD]
    simp [Vec3.smul_def, Vec3.add_def]

/-- Witness for C3: duration 2 split as `[1/2, 1, 1/2]`, total delta
`(0, 3, 0)`, target starting at orientation `(0, 1, 0)`. -/
theorem C3_rotation_partition_witness :
    runTicks ((⟨2, ⟨0, 3, 0⟩, 37⟩ : RotationAnimation).start) ⟨0, 1, 0⟩
      [1/2, 1, 1/2] = (⟨2, ⟨0, 3, 0⟩, 2⟩, ⟨0, 4, 0⟩) := by
  have h := (C3_rotation_partition 2 ⟨0, 3, 0⟩ ⟨0, 1, 0⟩ [1/2, 1, 1/2]
    (by norm_num)
    (by intro d hd
        simp only [List.mem_cons, List.not_mem_nil, or_false] at hd
        rcases hd with rfl | rfl | rfl <;> norm_num)
    (by norm_num)).2
  rw [h]
  simp only [Prod.mk.injEq, Vec3.add_def, Vec3.mk.injEq]
  norm_num

/-- C4: the ambient color is a three-phase piecewise-linear function of the
day-cycle clock: white to orange on `[0,30)`, orange to dark blue on
`[30,60)`, dark blue back to white on `[60,90)`; at clock 0 the color is
pure white, at clock 15 the blend fraction is exactly `1/2` (giving
`(1, 0.8, 0.6)`), at clock 30 the color equals the orange endpoint, and at
90 or beyond the clock wraps back to 0 (phase 1). -/
theorem C4_day_cycle (u dt : ℚ) (prev : Vec3) :
    (u + dt < 30 →
      dayNightStep u prev dt =
        (u + dt, glmMix dayWhite dayOrange ((u + dt) / 30))) ∧
    (30 ≤ u + dt → u + dt < 60 →
      dayNightStep u prev dt =
        (u + dt, glmMix dayOrange dayDark ((u + dt - 30) / 30))) ∧
    (60 ≤ u + dt → u + dt < 90 →
      dayNightStep u prev dt =
        (u + dt, glmMix dayDark dayWhite ((u + dt - 60) / 30))) ∧
    (90 ≤ u + dt → (dayNightStep u prev dt).1 = 0) ∧
    (dayNightStep 0 prev 0).2 = dayWhite ∧
    (dayNightStep 0 prev 15).2 = glmMix dayWhite dayOrange (1/2) ∧
    (dayNightStep 0 prev 15).2 = ⟨1, 8/10, 6/10⟩ ∧
    (dayNightStep 0 prev 30).2 = dayOrange := by
  refine ⟨?_, ?_, ?_, ?_, ?_, ?_, ?_, ?_⟩
  · intro h1
    simp only [dayNightStep]
    rw [if_pos h1]
  · intro h1 h2
    simp only [dayNightStep]
    rw [if_neg (by linarith), if_pos h2]
  · intro h1 h2
    simp only [dayNightStep]
    rw [if_neg (by linarith), if_neg (by linarith), if_pos h2]
  · intro h1
    simp only [dayNightStep]
    rw [if_neg (by linarith), if_neg (by linarith), if_neg (by linarith)]
  · simp only [dayNightStep]
    norm_num [glmMix, Vec3.smul_def, Vec3.add_def, Vec3.sub_def, dayWhite, dayOrange]
  · simp only [dayNightStep]
    norm_num [glmMix, Vec3.smul_def, Vec3.add_def, Vec3.sub_def, dayWhite, dayOrange]
  · simp only [dayNightStep]
    norm_num [glmMix, Vec3.smul_def, Vec3.add_def, Vec3.sub_def, dayWhite, dayOrange,
      Vec3.mk.injEq]
  · simp only [dayNightStep]
    norm_num [glmMix, Vec3.smul_def, Vec3.add_def, Vec3.sub_def, dayOrange, dayDark,
      Vec3.mk.injEq]

/-- Witness for C4 at clock 15: the blend is exactly `(1, 0.8, 0.6)`, the
midpoint of white and orange. -/
theorem C4_day_cycle_witness :
    (dayNightStep 0 dayWhite 15).2 = ⟨1, 8/10, 6/10⟩ ∧
    dayNightStep 0 dayWhite 15 = (15, glmMix dayWhite dayOrange (15 / 30)) := by
  have h := C4_day_cycle 0 15 dayWhite
  refine ⟨h.2.2.2.2.2.2.1, ?_⟩
  have h1 := h.1 (by norm_num)
  rw [h1]
  norm_num

/-- C10: on a frame where the day-cycle clock reaches or exceeds 90
seconds, the clock is reset to 0 and the ambient color is NOT recomputed
(it keeps the previous frame's value); interpolation from the reset clock
resumes on the following frame. -/
theorem C10_wrap_skips_recompute (u dt dt' : ℚ) (prev : Vec3) :
    (90 ≤ u + dt → dayNightStep u prev dt = (0, prev)) ∧
    (0 ≤ dt' → dt' < 30 →
      dayNightStep 0 prev dt' = (dt', glmMix dayWhite dayOrange (dt' / 30))) := by
  constructor
  · intro h1
    simp only [dayNightStep]
    rw [if_neg (by linarith), if_neg (by linarith), if_neg (by linarith)]
  · intro h1 h2
    simp only [dayNightStep]
    rw [if_pos (by linarith)]
    norm_num

/-- Witness for C10: clock 89 plus a 2-second frame wraps to 0 keeping the
previous ambient color; the next 1-second frame resumes interpolating. -/
theorem C10_wrap_skips_recompute_witness :
    dayNightStep 89 ⟨1/2, 1/2, 1/2⟩ 2 = (0, ⟨1/2, 1/2, 1/2⟩) ∧
    dayNightStep 0 ⟨1/2, 1/2, 1/2⟩ 1 =
      (1, glmMix dayWhite dayOrange (1 / 30)) := by
  have h := C10_wrap_skips_recompute 89 2 1 ⟨1/2, 1/2, 1/2⟩
  refine ⟨h.1 (by norm_num), ?_⟩
  have h2 := h.2 (by norm_num) (by norm_num)
  rw [h2]

/-- C5: the position committed by a fleeing-target movement step is the old
position plus the (possibly bounce-corrected) flee direction scaled by
`speed * dt` with the speed fixed at `1.0`, and the committed orientation
is the Euler triple `(0, atan2(dir.x, dir.z), 0)` for the corrected
direction. -/
theorem C5_flee_commit (a2 : ℚ → ℚ → ℚ) (pos dir : Vec3) (dt : ℚ) :
    fleeMove a2 pos dir dt =
      (pos + fleeSpeed • (dt • bouncedDir pos dir dt),
       bouncedDir pos dir dt,
       (⟨0, a2 (bouncedDir pos dir dt).x (bouncedDir pos dir dt).z, 0⟩ : Vec3)) ∧
    fleeSpeed = 1 := by
  constructor
  · unfold fleeMove bouncedDir
    rfl
  · rfl

/-- C8: whenever the light-source reference is bound, the frame sets its
position to `(x, 40, -20)` with `x = -30 + (sunTime/60)*60`, sweeping
linearly from `-30` to `30` while the clock runs from 0 to 60; once that
`x` would exceed 30 the committed position is `(1000, 40, -20)` instead,
hiding the sun without removing it. -/
theorem C8_sun_sweep (s : ℚ) :
    (s ≤ 60 → sunUpdate s = ⟨-30 + (s / 60) * 60, 40, -20⟩) ∧
    (0 ≤ s → s ≤ 60 →
      -30 ≤ -30 + (s / 60) * 60 ∧ -30 + (s / 60) * 60 ≤ 30) ∧
    (-30 + (s / 60) * 60 > 30 → sunUpdate s = ⟨1000, 40, -20⟩) ∧
    (60 < s → sunUpdate s = ⟨1000, 40, -20⟩) ∧
    (∀ (a2 : ℚ → ℚ → ℚ) (st : GameState) (inp : FrameInput),
      st.sunBound = true →
      (frameStep a2 st inp).sunPos =
        sunUpdate (dayNightStep st.sunTime st.ambientColor inp.deltaTime).1) := by
  have hs : (s / 60) * 60 = s := div_mul_cancel₀ s (by norm_num)
  refine ⟨?_, ?_, ?_, ?_, ?_⟩
  · intro h1
    simp only [sunUpdate]
    rw [if_neg (by rw [hs]; linarith)]
  · intro h1 h2
    rw [hs]
    exact ⟨by linarith, by linarith⟩
  · intro h1
    simp only [sunUpdate]
    rw [if_pos h1]
  · intro h1
    simp only [sunUpdate]
    rw [if_pos (by rw [hs]; linarith)]
  · intro a2 st inp hb
    simp only [frameStep, hb, if_true]

/-- Witness for C8 at clock 30: the sun sits at the middle of its sweep,
`(0, 40, -20)`; at clock 75 it is hidden at `(1000, 40, -20)`. -/
theorem C8_sun_sweep_witness :
    sunUpdate 30 = ⟨0, 40, -20⟩ ∧ sunUpdate 75 = ⟨1000, 40, -20⟩ := by
  constructor
  · have h := (C8_sun_sweep 30).1 (by norm_num)
    rw [h]
    norm_num [Vec3.mk.injEq]
  · exact (C8_sun_sweep 75).2.2.2.1 (by norm_num)

/-- A target block guarded by a null target reference does nothing. -/
theorem targetBlock_none (a2 : ℚ → ℚ → ℚ) (objects : List Object3D)
    (cRef : Option Nat) (dir : Vec3) (dt : ℚ) :
    targetBlock a2 objects cRef none dir dt = (objects, cRef, none, dir) := by
  cases cRef <;> rfl

/-- Once the running flag is cleared, the frame loop consumes no further
input. -/
theorem runLoop_stopped (a2 : ℚ → ℚ → ℚ) (st : GameState)
    (h : st.running = false) (frames : List FrameInput) :
    runLoop a2 st frames = st := by
  cases frames with
  | nil => rfl
  | cons i is => simp [runLoop, h]

/-- C6: once both fleeing-target references are null, the frame loop ends
on that same iteration (the end-of-frame check clears the running flag, so
no further frame input is consumed) and the process then exits with status
0; the process also exits 0 on normal window close, and the only non-zero
exit (status 1) occurs when shader construction fails at startup. -/
theorem C6_termination (a2 : ℚ → ℚ → ℚ) (st : GameState) (inp : FrameInput)
    (rest : List FrameInput)
    (load : String → String → Except String ShaderProgram)
    (sh : ShaderProgram) (msg : String) (st0 : GameState)
    (frames : List FrameInput) :
    (st.steveRef = none → st.pigRef = none →
      (frameStep a2 st inp).running = false) ∧
    ((frameStep a2 st inp).steveRef = none →
      (frameStep a2 st inp).pigRef = none →
      (frameStep a2 st inp).running = false) ∧
    (st.running = true → st.steveRef = none → st.pigRef = none →
      runLoop a2 st (inp :: rest) = frameStep a2 st inp) ∧
    (load "shaders/texture_perspective.vert" "shaders/texturing.frag" =
        Except.ok sh →
      mainProgram a2 load st0 frames = 0) ∧
    (load "shaders/texture_perspective.vert" "shaders/texturing.frag" =
        Except.error msg →
      mainProgram a2 load st0 frames = 1) := by
  have hframe : ∀ (s : GameState),
      s.steveRef = none → s.pigRef = none →
      (frameStep a2 s inp).running = false := by
    intro s h1 h2
    simp [frameStep, h1, h2, targetBlock_none]
  refine ⟨hframe st, ?_, ?_, ?_, ?_⟩
  · intro h1 h2
    have key : (frameStep a2 st inp).running =
        (if ((frameStep a2 st inp).steveRef.isNone &&
              (frameStep a2 st inp).pigRef.isNone) = true then false
         else (st.running && !inp.closeEvent)) := rfl
    rw [key, h1, h2]
    simp
  · intro hr h1 h2
    have hstop := hframe st h1 h2
    simp only [runLoop, hr, if_true]
    exact runLoop_stopped a2 (frameStep a2 st inp) hstop rest
  · intro hload
    simp [mainProgram, texturingShader, hload]
  · intro hload
    simp [mainProgram, texturingShader, hload]

/-- Witness for C6 on a concrete state with both targets already removed:
the next frame clears the running flag, the loop does not consume the rest
of the input, and the two exit codes evaluate as claimed. -/
theorem C6_termination_witness :
    (frameStep (fun _ _ => 0)
      ⟨true, 0, dayWhite, false, ⟨0, 0, 0⟩, [], none, none, none,
        ⟨1, 0, 0⟩, ⟨-1, 0, 0⟩⟩
      ⟨false, 1, ⟨0, 0, 0⟩, none⟩).running = false ∧
    runLoop (fun _ _ => 0)
      ⟨true, 0, dayWhite, false, ⟨0, 0, 0⟩, [], none, none, none,
        ⟨1, 0, 0⟩, ⟨-1, 0, 0⟩⟩
      [⟨false, 1, ⟨0, 0, 0⟩, none⟩] =
      frameStep (fun _ _ => 0)
        ⟨true, 0, dayWhite, false, ⟨0, 0, 0⟩, [], none, none, none,
          ⟨1, 0, 0⟩, ⟨-1, 0, 0⟩⟩
        ⟨false, 1, ⟨0, 0, 0⟩, none⟩ ∧
    mainProgram (fun _ _ => 0) (fun _ _ => Except.ok ⟨0⟩)
      ⟨true, 0, dayWhite, false, ⟨0, 0, 0⟩, [], none, none, none,
        ⟨1, 0, 0⟩, ⟨-1, 0, 0⟩⟩ [] = 0 ∧
    mainProgram (fun _ _ => 0) (fun _ _ => Except.error "fail")
      ⟨true, 0, dayWhite, false, ⟨0, 0, 0⟩, [], none, none, none,
        ⟨1, 0, 0⟩, ⟨-1, 0, 0⟩⟩ [] = 1 := by
  have h := C6_termination (fun _ _ => 0)
    ⟨true, 0, dayWhite, false, ⟨0, 0, 0⟩, [], none, none, none,
      ⟨1, 0, 0⟩, ⟨-1, 0, 0⟩⟩
    ⟨false, 1, ⟨0, 0, 0⟩, none⟩ []
    (fun _ _ => Except.ok ⟨0⟩) ⟨0⟩ "fail"
    ⟨true, 0, dayWhite, false, ⟨0, 0, 0⟩, [], none, none, none,
      ⟨1, 0, 0⟩, ⟨-1, 0, 0⟩⟩ []
  have h' := C6_termination (fun _ _ => 0)
    ⟨true, 0, dayWhite, false, ⟨0, 0, 0⟩, [], none, none, none,
      ⟨1, 0, 0⟩, ⟨-1, 0, 0⟩⟩
    ⟨false, 1, ⟨0, 0, 0⟩, none⟩ []
    (fun _ _ => Except.error "fail") ⟨0⟩ "fail"
    ⟨true, 0, dayWhite, false, ⟨0, 0, 0⟩, [], none, none, none,
      ⟨1, 0, 0⟩, ⟨-1, 0, 0⟩⟩ []
  exact ⟨h.1 rfl rfl, h.2.2.1 rfl rfl rfl, h.2.2.2.1 rfl, h'.2.2.2.2 rfl⟩

/-- C9: if the external shader load raises a runtime error during scene
construction, the handler catches it, logs `"ERROR: " ++ message`, and the
process terminates with exit status 1 without entering the frame loop (the
result does not depend on the frame inputs); if loading succeeds, the
constructed shader program is returned unchanged. -/
theorem C9_shader_errors (load : String → String → Except String ShaderProgram)
    (msg : String) (sh : ShaderProgram) (a2 : ℚ → ℚ → ℚ) (st0 : GameState)
    (frames : List FrameInput) :
    (load "shaders/texture_perspective.vert" "shaders/texturing.frag" =
        Except.error msg →
      texturingShader load = (Except.error 1, [String.append "ERROR: " msg]) ∧
      mainProgram a2 load st0 frames = 1 ∧
      mainProgram a2 load st0 frames = mainProgram a2 load st0 []) ∧
    (load "shaders/texture_perspective.vert" "shaders/texturing.frag" =
        Except.ok sh →
      texturingShader load = (Except.ok sh, [])) ∧
    (load "shaders/light_perspective.vert" "shaders/lighting.frag" =
        Except.error msg →
      phongLightingShader load =
        (Except.error 1, [String.append "ERROR: " msg])) ∧
    (load "shaders/light_perspective.vert" "shaders/lighting.frag" =
        Except.ok sh →
      phongLightingShader load = (Except.ok sh, [])) := by
  refine ⟨?_, ?_, ?_, ?_⟩
  · intro hload
    refine ⟨?_, ?_, ?_⟩
    · simp [texturingShader, hload]
    · simp [mainProgram, texturingShader, hload]
    · simp [mainProgram, texturingShader, hload]
  · intro hload
    simp [texturingShader, hload]
  · intro hload
    simp [phongLightingShader, hload]
  · intro hload
    simp [phongLightingShader, hload]

/-- Witness for C9 with a concrete failing loader and a concrete succeeding
loader. -/
theorem C9_shader_errors_witness :
    texturingShader (fun _ _ => Except.error "compile failed") =
      (Except.error 1, [String.append "ERROR: " "compile failed"]) ∧
    texturingShader (fun _ _ => Except.ok ⟨7⟩) = (Except.ok ⟨7⟩, []) ∧
    phongLightingShader (fun _ _ => Except.error "compile failed") =
      (Except.error 1, [String.append "ERROR: " "compile failed"]) := by
  have h1 := C9_shader_errors (fun _ _ => Except.error "compile failed")
    "compile failed" ⟨7⟩ (fun _ _ => 0)
    ⟨true, 0, dayWhite, false, ⟨0, 0, 0⟩, [], none, none, none,
      ⟨1, 0, 0⟩, ⟨-1, 0, 0⟩⟩ []
  have h2 := C9_shader_errors (fun _ _ => Except.ok ⟨7⟩)
    "compile failed" ⟨7⟩ (fun _ _ => 0)
    ⟨true, 0, dayWhite, false, ⟨0, 0, 0⟩, [], none, none, none,
      ⟨1, 0, 0⟩, ⟨-1, 0, 0⟩⟩ []
  exact ⟨(h1.1 rfl).1, h2.2.1 rfl, (h1.2.2.1 rfl)⟩

